import Mathlib

/-!
Verification of the frontend orchestration glue of the mathagent repository
(file src/frontend/src/App.js) against its natural-language specification.

The React component code is shallowly embedded: JSON payloads become an
inductive `Json` value type, JavaScript strings become Lean `String`
(character lists where trimming matters), React state updates become pure
state-transition functions, and each asynchronous handler becomes a function
from its input and the outcome of its network calls to the trace of state
updates and HTTP requests it performs.
-/

/-- A JSON value, as carried in axios request and response bodies. -/
inductive Json where
  | null : Json
  | bool : Bool → Json
  | num : Int → Json
  | str : String → Json
  | arr : List Json → Json
  | obj : List (String × Json) → Json

/-- Property access `j[k]` on a JSON value: a missing key or a non-object
reads as `null` (modelling `undefined` reads on well-formed data). -/
def jsGet (j : Json) (k : String) : Json :=
  match j with
  | .obj kvs =>
    match kvs.lookup k with
    | some v => v
    | none => .null
  | _ => .null

/-- Whether an object carries a key at all (distinguishing an absent field
from one holding a falsy value). -/
def jsHasField (j : Json) (k : String) : Bool :=
  match j with
  | .obj kvs => kvs.any (fun kv => kv.1 == k)
  | _ => false

/-- The keys of a JSON object, in order. -/
def jsKeys (j : Json) : List String :=
  match j with
  | .obj kvs => kvs.map Prod.fst
  | _ => []

/-- JavaScript truthiness of a JSON value (false, 0, the empty string and
null are falsy; objects and arrays are truthy). -/
def jsTruthy (j : Json) : Bool :=
  match j with
  | .null => false
  | .bool b => b
  | .num n => n != 0
  | .str s => s.data != []
  | .arr _ => true
  | .obj _ => true

/-- The ECMAScript whitespace characters recognised by `String.prototype.trim`
(space, tab, line feed, carriage return, vertical tab, form feed,
no-break space, BOM). -/
def isJsWs (c : Char) : Bool :=
  c == ' ' || c == '\t' || c == '\n' || c == '\r' ||
  c == '\x0b' || c == '\x0c' || c == '\u00A0' || c == '\uFEFF'

/-- Trim JS whitespace from both ends of a character list. -/
def trimList (l : List Char) : List Char :=
  ((l.dropWhile isJsWs).reverse.dropWhile isJsWs).reverse

/-- The embedding of `question.trim()`. -/
def jsTrimStr (s : String) : String :=
  ⟨trimList s.data⟩

/-- The guard `!question.trim()` used by handleSolve (App.js line 391) and by
the solve button (line 66): a JS string is falsy exactly when it is empty. -/
def questionBlank (q : String) : Bool :=
  (trimList q.data).isEmpty

/-- The solve button disabled attribute from QuestionInput (App.js line 66):
`disabled={isLoading || !question.trim()}`. -/
def solveButtonDisabled (isLoading : Bool) (q : String) : Bool :=
  isLoading || questionBlank q

/-- An HTTP request issued through the axios instance: endpoint and body. -/
structure ApiRequest where
  endpoint : String
  body : Json

/-- The POST /solve request built by handleSolve (App.js lines 397-400):
body `{ question: question.trim(), use_mcp: true }`. -/
def solveRequest (q : String) : ApiRequest :=
  { endpoint := "/solve"
  , body := .obj [("question", .str (jsTrimStr q)), ("use_mcp", .bool true)] }

/-- The solve-related slice of App state: the question text, the displayed
solution (null when absent) and the loading flag. -/
structure SolveState where
  question : String
  solution : Option Json
  isLoading : Bool

/-- One state update or network action performed by handleSolve. -/
inductive SolveStep where
  | setLoading (b : Bool)
  | setSolution (s : Option Json)
  | post (r : ApiRequest)

/-- Whether a step is the network POST. -/
def isPostStep : SolveStep → Bool
  | .post _ => true
  | _ => false

/-- The trace of handleSolve (App.js lines 390-409) given the outcome of the
POST /solve call: `some data` when the call resolves with response.data,
`none` when it rejects. An empty or whitespace-only question returns early
with no actions; otherwise the loading flag is set, the displayed solution
is cleared, the request is posted, the solution is set on success only, and
the loading flag is reset in the finally block on both paths. -/
def handleSolve (q : String) (outcome : Option Json) : List SolveStep :=
  if questionBlank q then []
  else
    [.setLoading true, .setSolution none, .post (solveRequest q)] ++
    (match outcome with
     | some data => [.setSolution (some data)]
     | none => []) ++
    [.setLoading false]

/-- Apply one handleSolve step to the solve-related state (the POST itself
does not change component state). -/
def applySolveStep (st : SolveState) : SolveStep → SolveState
  | .setLoading b => { st with isLoading := b }
  | .setSolution s => { st with solution := s }
  | .post _ => st

/-- Apply a trace of handleSolve steps in order. -/
def applySolveSteps (st : SolveState) (steps : List SolveStep) : SolveState :=
  steps.foldl applySolveStep st

/-- The requests posted along a trace. -/
def solvePosts (steps : List SolveStep) : List ApiRequest :=
  steps.filterMap (fun s => match s with | .post r => some r | _ => none)

/-- The free-text comment fields of the feedback form, keyed by clarity,
accuracy and completeness (SolutionDisplay state, App.js lines 89-93). -/
structure FeedbackComments where
  clarity : String
  accuracy : String
  completeness : String

/-- The feedback-form slice of SolutionDisplay state (App.js lines 87-93):
visibility toggle, star rating, comment fields. -/
structure FeedbackFormState where
  showFeedback : Bool
  rating : Nat
  comments : FeedbackComments

/-- The initial SolutionDisplay state: form hidden, rating 5, all three
comment fields empty strings (App.js lines 87-93). -/
def initialFeedbackForm : FeedbackFormState :=
  { showFeedback := false
  , rating := 5
  , comments := { clarity := "", accuracy := "", completeness := "" } }

/-- The list the star buttons are rendered from (App.js line 197). -/
def starValues : List Nat := [1, 2, 3, 4, 5]

/-- A user interaction with the feedback form: clicking the i-th star button
(`onClick={() => setRating(star)}`, line 200), typing in one of the three
comment inputs (lines 215, 223, 233), or toggling the form (line 184). -/
inductive FormOp where
  | clickStar (i : Fin starValues.length)
  | setClarity (s : String)
  | setAccuracy (s : String)
  | setCompleteness (s : String)
  | toggleFeedback

/-- Apply one form interaction to the form state. Typing in a comment input
spreads the previous comments object and replaces one key, so the key set
never changes. -/
def applyFormOp (st : FeedbackFormState) : FormOp → FeedbackFormState
  | .clickStar i => { st with rating := starValues.get i }
  | .setClarity s => { st with comments := { st.comments with clarity := s } }
  | .setAccuracy s => { st with comments := { st.comments with accuracy := s } }
  | .setCompleteness s => { st with comments := { st.comments with completeness := s } }
  | .toggleFeedback => { st with showFeedback := !st.showFeedback }

/-- Apply a sequence of form interactions in order. -/
def applyFormOps (st : FeedbackFormState) (ops : List FormOp) : FeedbackFormState :=
  ops.foldl applyFormOp st

/-- The comments object as posted in the feedback request body. -/
def commentsJson (c : FeedbackComments) : Json :=
  .obj [("clarity", .str c.clarity), ("accuracy", .str c.accuracy),
        ("completeness", .str c.completeness)]

/-- The POST /feedback request built by handleFeedback (App.js lines 413-417):
body `{ session_id, rating, comments }`. -/
def feedbackRequest (sessionId : String) (rating : Nat) (c : FeedbackComments) :
    ApiRequest :=
  { endpoint := "/feedback"
  , body := .obj [("session_id", .str sessionId), ("rating", .num rating),
                  ("comments", commentsJson c)] }

/-- One action performed by handleFeedback: the POST, the analytics GET, or
the setAnalytics state update. -/
inductive FbStep where
  | post (r : ApiRequest)
  | get (endpoint : String)
  | setAnalytics (a : Json)

/-- The possible outcomes of the network calls inside handleFeedback: the
POST rejects, the POST resolves but the analytics GET rejects, or both
resolve (carrying the fresh analytics payload). -/
inductive FbOutcome where
  | postFailed
  | getFailed
  | success (fresh : Json)

/-- The trace of handleFeedback (App.js lines 411-426): POST /feedback, then
on success GET /feedback/analytics, then on success setAnalytics with the
fetched data. A rejection anywhere stops the trace there. -/
def handleFeedback (sessionId : String) (rating : Nat) (c : FeedbackComments) :
    FbOutcome → List FbStep
  | .postFailed => [.post (feedbackRequest sessionId rating c)]
  | .getFailed =>
      [.post (feedbackRequest sessionId rating c), .get "/feedback/analytics"]
  | .success fresh =>
      [.post (feedbackRequest sessionId rating c), .get "/feedback/analytics",
       .setAnalytics fresh]

/-- Whether the promise returned by handleFeedback rejects: the catch block
(App.js lines 422-425) logs and rethrows, so any failed call propagates to
the caller. -/
def fbThrows : FbOutcome → Bool
  | .success _ => false
  | _ => true

/-- Apply one handleFeedback step to the analytics state (only setAnalytics
changes it). -/
def applyFbStep (analytics : Option Json) : FbStep → Option Json
  | .setAnalytics a => some a
  | _ => analytics

/-- Apply a handleFeedback trace to the analytics state in order. -/
def applyFbSteps (analytics : Option Json) (steps : List FbStep) : Option Json :=
  steps.foldl applyFbStep analytics

/-- handleFeedbackSubmit (App.js lines 95-103): awaits
`onFeedback(solution.session_id, rating, comments)` and hides the form only
when that await resolves; the catch block only logs, leaving the whole form
state untouched on failure. -/
def handleFeedbackSubmit (st : FeedbackFormState) (outcome : FbOutcome) :
    FeedbackFormState :=
  if fbThrows outcome then st else { st with showFeedback := false }

/-- The request handleFeedbackSubmit causes to be posted for a given form
state and solution session id (line 97 feeding lines 413-417). -/
def submittedFeedbackRequest (st : FeedbackFormState) (sessionId : String) :
    ApiRequest :=
  feedbackRequest sessionId st.rating st.comments

/-- The four read endpoints hit by loadSystemData in parallel
(App.js lines 373-378). -/
def loadSystemDataEndpoints : List String :=
  ["/health", "/feedback/analytics", "/knowledge-base/stats", "/mcp/tools"]

/-- The interval timer installed by the mount effect (App.js lines 364-368):
its period and whether clearInterval has run. -/
structure DashboardTimer where
  period : Nat
  cleared : Bool

/-- Mounting App (App.js lines 364-368): loadSystemData runs once at mount
and an interval timer with a 30000 ms period is installed. Returns the
endpoints read immediately and the timer. -/
def mountDashboard : List String × DashboardTimer :=
  (loadSystemDataEndpoints, { period := 30000, cleared := false })

/-- One firing of the interval timer: while not cleared it runs
loadSystemData (the four reads); once cleared it does nothing. -/
def tickDashboard (tm : DashboardTimer) : List String :=
  if tm.cleared then [] else loadSystemDataEndpoints

/-- The effect cleanup returned on unmount (App.js line 367):
`clearInterval(interval)`. -/
def unmountDashboard (tm : DashboardTimer) : DashboardTimer :=
  { tm with cleared := true }

/-- The system-data slice of App state fed by loadSystemData (App.js lines
357-360): system status, analytics, knowledge-base stats, MCP tools. -/
structure SystemData where
  systemStatus : Option Json
  analytics : Option Json
  knowledgeBaseStats : Option Json
  mcpTools : Option Json

/-- The outcomes of the four parallel GETs inside loadSystemData: `some`
carries the response data, `none` marks a rejected promise. -/
structure FetchResults where
  health : Option Json
  analyticsRes : Option Json
  kbRes : Option Json
  mcpRes : Option Json

/-- The state update of loadSystemData (App.js lines 370-387): Promise.all
resolves only when all four GETs resolve, and only then do the four setters
run; if any GET rejects, Promise.all rejects, control jumps to the catch
block, and no setter runs. -/
def loadSystemData (st : SystemData) (r : FetchResults) : SystemData :=
  match r.health, r.analyticsRes, r.kbRes, r.mcpRes with
  | some h, some a, some k, some m =>
      { systemStatus := some h, analytics := some a
      , knowledgeBaseStats := some k, mcpTools := some m }
  | _, _, _, _ => st

/-- The input-validation badge of the guardrails panel (App.js line 150) is
passed exactly when `solution.guardrails_passed.input` is truthy. -/
def inputBadgePassed (solution : Json) : Bool :=
  jsTruthy (jsGet (jsGet solution "guardrails_passed") "input")

/-- The output-quality badge of the guardrails panel (App.js line 154) is
passed exactly when `solution.guardrails_passed.output` is truthy. -/
def outputBadgePassed (solution : Json) : Bool :=
  jsTruthy (jsGet (jsGet solution "guardrails_passed") "output")

/-- Modelled from the spec: the claim of C4 says the badges are driven by a
Solution field named `guardrails` holding the GuardrailVerdict; this
definition follows the wording of the spec, for comparison with the
definitions taken from the code. -/
def specInputBadge (solution : Json) : Bool :=
  jsTruthy (jsGet (jsGet solution "guardrails") "input")

/-- Modelled from the spec: the output counterpart of specInputBadge. -/
def specOutputBadge (solution : Json) : Bool :=
  jsTruthy (jsGet (jsGet solution "guardrails") "output")

/-- A string all of whose characters are JS whitespace trims to nothing. -/
theorem trimList_eq_nil_of_ws (l : List Char) (h : ∀ c ∈ l, isJsWs c = true) :
    trimList l = [] := by
  have h1 : l.dropWhile isJsWs = [] :=
    List.dropWhile_eq_nil_iff.mpr (by simpa using h)
  simp [trimList, h1]

/-- An empty or whitespace-only question is blank in the sense of the
`!question.trim()` guard. -/
theorem questionBlank_of_ws (q : String) (h : ∀ c ∈ q.data, isJsWs c = true) :
    questionBlank q = true := by
  unfold questionBlank
  rw [trimList_eq_nil_of_ws q.data h]
  rfl

/-- C1: for every question string that is empty or consists only of
whitespace, handleSolve returns early with no actions at all (so no POST
/solve is issued and no setSolution runs), the component state — in
particular the displayed solution — is left exactly as it was, and the
solve button is rendered disabled whatever the loading flag. -/
theorem blank_question_never_solves (q : String) (outcome : Option Json)
    (st : SolveState) (loading : Bool)
    (h : ∀ c ∈ q.data, isJsWs c = true) :
    handleSolve q outcome = [] ∧
    solvePosts (handleSolve q outcome) = [] ∧
    applySolveSteps st (handleSolve q outcome) = st ∧
    solveButtonDisabled loading q = true := by
  have hb : questionBlank q = true := questionBlank_of_ws q h
  refine ⟨?_, ?_, ?_, ?_⟩
  · simp [handleSolve, hb]
  · simp [handleSolve, hb, solvePosts]
  · simp [handleSolve, hb, applySolveSteps]
  · simp [solveButtonDisabled, hb]

/-- Witness for C1 at the whitespace-only question made of a space, a tab
and a newline. -/
theorem blank_question_never_solves_witness :
    handleSolve " \t\n" none = [] ∧
    solvePosts (handleSolve " \t\n" none) = [] ∧
    applySolveSteps ⟨" \t\n", none, false⟩ (handleSolve " \t\n" none)
      = ⟨" \t\n", none, false⟩ ∧
    solveButtonDisabled false " \t\n" = true :=
  blank_question_never_solves " \t\n" none ⟨" \t\n", none, false⟩ false (by decide)

/-- C2 counterexample: at the concrete non-whitespace question "2+2" the
POST /solve body carries no field named use_computation_service at all; the
boolean flag it does carry is named use_mcp. -/
theorem solve_flag_name_cex :
    questionBlank "2+2" = false ∧
    jsHasField (solveRequest "2+2").body "use_computation_service" = false ∧
    jsHasField (solveRequest "2+2").body "use_mcp" = true := by
  refine ⟨by decide, by decide, by decide⟩

/-- C2 (amended): for every non-whitespace question, handleSolve posts
exactly one request, to the /solve endpoint, whose body carries the trimmed
question text under the key question and the boolean flag named use_mcp set
to true. -/
theorem solveRequest_fields (q : String) (outcome : Option Json)
    (h : questionBlank q = false) :
    solvePosts (handleSolve q outcome) = [solveRequest q] ∧
    (solveRequest q).endpoint = "/solve" ∧
    jsGet (solveRequest q).body "question" = .str (jsTrimStr q) ∧
    jsGet (solveRequest q).body "use_mcp" = .bool true := by
  refine ⟨?_, rfl, rfl, rfl⟩
  cases outcome <;> simp [handleSolve, h, solvePosts]

/-- Witness for C2 (amended) at the question "2+2". -/
theorem solveRequest_fields_witness :
    solvePosts (handleSolve "2+2" none) = [solveRequest "2+2"] ∧
    (solveRequest "2+2").endpoint = "/solve" ∧
    jsGet (solveRequest "2+2").body "question" = .str (jsTrimStr "2+2") ∧
    jsGet (solveRequest "2+2").body "use_mcp" = .bool true :=
  solveRequest_fields "2+2" none (by decide)

/-- C9: for every non-whitespace question, the displayed solution is
cleared to null strictly before the POST /solve is issued (setSolution none
occurs among the steps preceding the first network post), and after the
whole handler runs the loading flag is false on both paths while the
displayed solution equals the outcome of the call: the fresh response data
on success, null on error — never the previously displayed value. -/
theorem handleSolve_no_stale (q : String) (outcome : Option Json)
    (st : SolveState) (h : questionBlank q = false) :
    SolveStep.setSolution none
      ∈ (handleSolve q outcome).takeWhile (fun s => !isPostStep s) ∧
    (applySolveSteps st (handleSolve q outcome)).isLoading = false ∧
    (applySolveSteps st (handleSolve q outcome)).solution = outcome := by
  refine ⟨?_, ?_, ?_⟩ <;>
    cases outcome <;>
      simp [handleSolve, h, applySolveSteps, applySolveStep, isPostStep,
        List.takeWhile]

/-- Witness for C9 at the question "2+2", a failing solve call, and a state
displaying a stale solution. -/
theorem handleSolve_no_stale_witness :
    SolveStep.setSolution none
      ∈ (handleSolve "2+2" none).takeWhile (fun s => !isPostStep s) ∧
    (applySolveSteps ⟨"2+2", some (.str "stale"), false⟩
      (handleSolve "2+2" none)).isLoading = false ∧
    (applySolveSteps ⟨"2+2", some (.str "stale"), false⟩
      (handleSolve "2+2" none)).solution = none :=
  handleSolve_no_stale "2+2" none ⟨"2+2", some (.str "stale"), false⟩ (by decide)

/-- Every entry of the star-button list lies between 1 and 5. -/
theorem starValues_bounds (i : Fin starValues.length) :
    1 ≤ starValues.get i ∧ starValues.get i ≤ 5 := by
  revert i
  decide

/-- Any sequence of form interactions preserves the rating bounds. -/
theorem rating_bounds_applyFormOps (st : FeedbackFormState) (ops : List FormOp)
    (h : 1 ≤ st.rating ∧ st.rating ≤ 5) :
    1 ≤ (applyFormOps st ops).rating ∧ (applyFormOps st ops).rating ≤ 5 := by
  induction ops generalizing st with
  | nil => exact h
  | cons op t ih =>
    refine ih (applyFormOp st op) ?_
    cases op with
    | clickStar i => exact starValues_bounds i
    | setClarity s => exact h
    | setAccuracy s => exact h
    | setCompleteness s => exact h
    | toggleFeedback => exact h

/-- C3: the rating is an invariant of the feedback form: it starts at 5,
every reachable form state (any sequence of star clicks, comment edits and
toggles from the initial state) keeps it in the range 1..5, and the feedback
request built from any reachable state carries exactly that in-range rating
under the key rating. -/
theorem feedback_rating_invariant (ops : List FormOp) (sessionId : String) :
    initialFeedbackForm.rating = 5 ∧
    1 ≤ (applyFormOps initialFeedbackForm ops).rating ∧
    (applyFormOps initialFeedbackForm ops).rating ≤ 5 ∧
    jsGet (submittedFeedbackRequest (applyFormOps initialFeedbackForm ops)
        sessionId).body "rating"
      = .num (applyFormOps initialFeedbackForm ops).rating := by
  obtain ⟨h1, h2⟩ :=
    rating_bounds_applyFormOps initialFeedbackForm ops (by decide)
  exact ⟨rfl, h1, h2, rfl⟩

/-- A concrete solution payload on which the field named guardrails and the
field named guardrails_passed disagree. -/
def c4Solution : Json :=
  .obj [("session_id", .str "s1"),
        ("guardrails_passed", .obj [("input", .bool false), ("output", .bool false)]),
        ("guardrails", .obj [("input", .bool true), ("output", .bool true)])]

/-- C4 counterexample: the quality-check badges are not driven by a Solution
field named guardrails: on a concrete payload whose guardrails field says
both checks passed, the rendered badges still show failed, because the code
reads the field named guardrails_passed instead. -/
theorem guardrail_badges_cex :
    inputBadgePassed c4Solution = false ∧ specInputBadge c4Solution = true ∧
    outputBadgePassed c4Solution = false ∧ specOutputBadge c4Solution = true := by
  refine ⟨by decide, by decide, by decide, by decide⟩

/-- C4 (amended): the quality-check badges are driven by the Solution field
named guardrails_passed holding the verdict {input: bool, output: bool}:
whenever a solution payload carries that field with boolean members input
and output, the input badge shows exactly the input member and the output
badge exactly the output member. -/
theorem guardrail_badges_from_field (sol : Json) (i o : Bool)
    (h : jsGet sol "guardrails_passed"
      = .obj [("input", .bool i), ("output", .bool o)]) :
    inputBadgePassed sol = i ∧ outputBadgePassed sol = o := by
  unfold inputBadgePassed outputBadgePassed
  rw [h]
  exact ⟨rfl, rfl⟩

/-- Witness for C4 (amended) at a concrete payload with input passed and
output failed. -/
theorem guardrail_badges_from_field_witness :
    inputBadgePassed (Json.obj [("guardrails_passed",
        Json.obj [("input", .bool true), ("output", .bool false)])]) = true ∧
    outputBadgePassed (Json.obj [("guardrails_passed",
        Json.obj [("input", .bool true), ("output", .bool false)])]) = false :=
  guardrail_badges_from_field _ true false rfl

/-- C5: every feedback submission the frontend sends posts a body whose
comments object is keyed by exactly clarity, accuracy and completeness (in
that order), carrying the three free-text fields, together with the
session_id and the chosen rating; in the initial form state all three
comment fields are the empty string, and whatever the call outcome the
first action of handleFeedback is exactly that POST. -/
theorem feedback_request_shape (sessionId : String) (rating : Nat)
    (c : FeedbackComments) (outcome : FbOutcome) :
    jsKeys (jsGet (feedbackRequest sessionId rating c).body "comments")
      = ["clarity", "accuracy", "completeness"] ∧
    jsGet (feedbackRequest sessionId rating c).body "session_id" = .str sessionId ∧
    jsGet (feedbackRequest sessionId rating c).body "rating" = .num rating ∧
    jsGet (jsGet (feedbackRequest sessionId rating c).body "comments") "clarity"
      = .str c.clarity ∧
    jsGet (jsGet (feedbackRequest sessionId rating c).body "comments") "accuracy"
      = .str c.accuracy ∧
    jsGet (jsGet (feedbackRequest sessionId rating c).body "comments") "completeness"
      = .str c.completeness ∧
    initialFeedbackForm.comments.clarity = "" ∧
    initialFeedbackForm.comments.accuracy = "" ∧
    initialFeedbackForm.comments.completeness = "" ∧
    (handleFeedback sessionId rating c outcome).head?
      = some (.post (feedbackRequest sessionId rating c)) := by
  refine ⟨rfl, rfl, rfl, rfl, rfl, rfl, rfl, rfl, rfl, ?_⟩
  cases outcome <;> rfl

/-- C6: the dashboard polls on a fixed interval: mounting App immediately
runs the four reads (health, feedback analytics, knowledge-base stats, MCP
tools, in that order and nothing else), installs an interval timer with a
30000 ms period, every firing of an uncleared timer issues exactly those
same four reads, and after the unmount cleanup runs the timer is cleared
and a firing issues nothing. -/
theorem dashboard_polling (tm : DashboardTimer) (p : Nat) :
    mountDashboard.1
      = ["/health", "/feedback/analytics", "/knowledge-base/stats", "/mcp/tools"] ∧
    mountDashboard.2.period = 30000 ∧
    mountDashboard.2.cleared = false ∧
    tickDashboard { period := p, cleared := false }
      = ["/health", "/feedback/analytics", "/knowledge-base/stats", "/mcp/tools"] ∧
    (unmountDashboard tm).cleared = true ∧
    tickDashboard (unmountDashboard tm) = [] := by
  refine ⟨rfl, rfl, rfl, rfl, rfl, ?_⟩
  simp [tickDashboard, unmountDashboard]

/-- C7: after a feedback submission in which both calls resolve, the
handler first posts the feedback, then fetches a fresh snapshot from the
/feedback/analytics endpoint, and the analytics state after the trace is
exactly the fetched snapshot, whatever value was displayed before — the
displayed snapshot is replaced by the server value, never mutated locally. -/
theorem feedback_refreshes_analytics (prior : Option Json) (sessionId : String)
    (rating : Nat) (c : FeedbackComments) (fresh : Json) :
    applyFbSteps prior (handleFeedback sessionId rating c (.success fresh))
      = some fresh ∧
    (handleFeedback sessionId rating c (.success fresh)).head?
      = some (.post (feedbackRequest sessionId rating c)) ∧
    FbStep.get "/feedback/analytics"
      ∈ handleFeedback sessionId rating c (.success fresh) := by
  refine ⟨rfl, rfl, ?_⟩
  simp [handleFeedback]

/-- C8: the periodic refresh is all-or-nothing: if any of the four parallel
reads fails, loadSystemData changes none of the four displayed state
slices; and when all four succeed, all four slices are replaced by the
fresh payloads. -/
theorem loadSystemData_all_or_nothing (st : SystemData) (r : FetchResults) :
    ((r.health = none ∨ r.analyticsRes = none ∨ r.kbRes = none ∨ r.mcpRes = none) →
      loadSystemData st r = st) ∧
    (∀ h a k m,
      r = { health := some h, analyticsRes := some a
          , kbRes := some k, mcpRes := some m } →
      loadSystemData st r
        = { systemStatus := some h, analytics := some a
          , knowledgeBaseStats := some k, mcpTools := some m }) := by
  constructor
  · intro hfail
    obtain ⟨h, a, k, m⟩ := r
    rcases h with _ | h <;> rcases a with _ | a <;>
      rcases k with _ | k <;> rcases m with _ | m <;>
      first
        | rfl
        | simp at hfail
  · intro h a k m hr
    subst hr
    rfl

/-- Witness for C8: with the health read failed, the previously displayed
state is returned untouched. -/
theorem loadSystemData_all_or_nothing_witness :
    loadSystemData
      { systemStatus := some (.str "old"), analytics := none
      , knowledgeBaseStats := none, mcpTools := none }
      { health := none, analyticsRes := some .null
      , kbRes := some .null, mcpRes := some .null }
      = { systemStatus := some (.str "old"), analytics := none
        , knowledgeBaseStats := none, mcpTools := none } :=
  (loadSystemData_all_or_nothing
    { systemStatus := some (.str "old"), analytics := none
    , knowledgeBaseStats := none, mcpTools := none }
    { health := none, analyticsRes := some .null
    , kbRes := some .null, mcpRes := some .null }).1 (Or.inl rfl)

/-- C10: submitting feedback changes no form state on failure: when the
post or the analytics reload rejects, handleFeedbackSubmit leaves the whole
form state (visibility, rating, comments) exactly as it was, so the entered
input is preserved for retry; only when the submission resolves is the form
hidden, and even then the rating and comments are untouched. -/
theorem feedback_submit_form_state (st : FeedbackFormState) (fresh : Json) :
    handleFeedbackSubmit st .postFailed = st ∧
    handleFeedbackSubmit st .getFailed = st ∧
    handleFeedbackSubmit st (.success fresh)
      = { st with showFeedback := false } ∧
    (∀ outcome, (handleFeedbackSubmit st outcome).rating = st.rating ∧
      (handleFeedbackSubmit st outcome).comments = st.comments) := by
  refine ⟨rfl, rfl, rfl, ?_⟩
  intro outcome
  cases outcome <;> exact ⟨rfl, rfl⟩
